import Mathlib

/-!
Verification development for the librbd image-create transaction
(src/librbd/image/CreateRequest.cc).

The C++ request object is embedded shallowly:

* pure validators (validate_features, validate_striping, validate_order,
  validate_data_pool and the uint8 truncation helper get_image_option) become
  Lean functions over Nat/Int, machine 64-bit complement written explicitly;
* the constructor's option resolution becomes the pure function `ctor`
  producing a `ReqState` record;
* the asynchronous forward/rollback pipeline becomes a chain of pure
  functions, one per member callback, threading the request state and an
  `Env` record that holds the result each cluster operation would return.
  Each function yields the integer delivered to the completion continuation
  together with the ordered trace of cluster operations attempted.
-/

namespace Librbd

/-- Error code numbers (as in errno.h); results are negated codes. -/
def ENOENT : Int := 2

def EINVAL : Int := 22

def EDOM : Int := 33

def ENOSYS : Int := 38

/-- Modelled from the spec: the fixed feature vocabulary (the numeric bit
assignments live in include/rbd/features.h, which is not part of src/; the
spec fixes only the eight names, so distinct bits are chosen). -/
def RBD_FEATURE_LAYERING : Nat := 1

def RBD_FEATURE_STRIPINGV2 : Nat := 2

def RBD_FEATURE_EXCLUSIVE_LOCK : Nat := 4

def RBD_FEATURE_OBJECT_MAP : Nat := 8

def RBD_FEATURE_FAST_DIFF : Nat := 16

def RBD_FEATURE_DEEP_FLATTEN : Nat := 32

def RBD_FEATURE_JOURNALING : Nat := 64

def RBD_FEATURE_DATA_POOL : Nat := 128

/-- Union of the whole feature vocabulary. -/
def RBD_FEATURES_ALL : Nat := 255

/-- Modelled from the spec: mirror-mode vocabulary values (cls_rbd_types.h is
not part of src/); Disabled, Image, Pool in store order. -/
def MIRROR_MODE_DISABLED : Nat := 0

def MIRROR_MODE_IMAGE : Nat := 1

def MIRROR_MODE_POOL : Nat := 2

/-- Modelled from the spec: the Enabled mirror-image state value
(cls_rbd_types.h is not part of src/). -/
def MIRROR_IMAGE_STATE_ENABLED : Nat := 1

/-- Bitwise complement on a 64-bit machine word (the C++ `~` on uint64_t),
valid for arguments below 2^64. -/
def not64 (x : Nat) : Nat := x ^^^ (2 ^ 64 - 1)

/-- Outcome of validate_features: an error return, success, or the
`assert(false)` hit for forced-non-primary without journaling. -/
inductive VRes where
  | ok : VRes
  | err (e : Int) : VRes
  | assertFail : VRes
deriving DecidableEq

/-- validate_features from CreateRequest.cc (anonymous namespace):
unknown bits give -ENOSYS, broken feature dependencies give -EINVAL, and
force_non_primary without journaling asserts. -/
def validate_features (features : Nat) (force_non_primary : Bool) : VRes :=
  if features &&& not64 RBD_FEATURES_ALL ≠ 0 then
    .err (-ENOSYS)
  else if features &&& RBD_FEATURE_FAST_DIFF ≠ 0 ∧ features &&& RBD_FEATURE_OBJECT_MAP = 0 then
    .err (-EINVAL)
  else if features &&& RBD_FEATURE_OBJECT_MAP ≠ 0 ∧ features &&& RBD_FEATURE_EXCLUSIVE_LOCK = 0 then
    .err (-EINVAL)
  else if features &&& RBD_FEATURE_JOURNALING ≠ 0 then
    if features &&& RBD_FEATURE_EXCLUSIVE_LOCK = 0 then .err (-EINVAL) else .ok
  else if force_non_primary then
    .assertFail
  else
    .ok

/-- validate_striping from CreateRequest.cc: stripe-unit and stripe-count
must be zero together, and a nonzero stripe-unit must divide the object size
`2^order` and not exceed it. -/
def validate_striping (order stripe_unit stripe_count : Nat) : Int :=
  if (stripe_unit ≠ 0 ∧ stripe_count = 0) ∨ (stripe_unit = 0 ∧ stripe_count ≠ 0) then
    -EINVAL
  else if stripe_unit ≠ 0 ∨ stripe_count ≠ 0 then
    if 2 ^ order % stripe_unit ≠ 0 ∨ stripe_unit > 2 ^ order then -EINVAL else 0
  else
    0

/-- CreateRequest::validate_order: the effective order (a uint8_t) must lie
in [12, 25], otherwise -EDOM. -/
def validate_order (order : Nat) : Int :=
  if order > 25 ∨ order < 12 then -EDOM else 0

/-- get_image_option from CreateRequest.cc: an option value is read as a
uint64_t and cast to uint8_t, i.e. truncated mod 256; a missing option stays
missing. -/
def get_image_option (v : Option Nat) : Option Nat :=
  v.map (fun x => x % 256)

/-- The typed option map handed to the constructor (absent entry = `none`). -/
structure ImageOptions where
  features : Option Nat
  features_clear : Option Nat
  features_set : Option Nat
  stripe_unit : Option Nat
  stripe_count : Option Nat
  order : Option Nat
  journal_order : Option Nat
  journal_splay_width : Option Nat
  journal_pool : Option String
  data_pool : Option String

/-- Configuration defaults consulted by the constructor and validate_pool. -/
structure Conf where
  rbd_default_features : Nat
  rbd_default_stripe_unit : Nat
  rbd_default_stripe_count : Nat
  rbd_default_order : Nat
  rbd_journal_order : Nat
  rbd_journal_splay_width : Nat
  rbd_journal_pool : String
  rbd_default_data_pool : String
  rbd_validate_pool : Bool

/-- Request state after construction. `m_r_saved`, `m_mirror_mode` and
`m_data_pool_id` are members whose initializers sit in the class header that
is not part of src/; modelled from the spec: no failure saved yet (0),
mirror mode Disabled, no data-pool id resolved (-1). -/
structure ReqState where
  m_features : Nat
  m_order : Nat
  m_stripe_unit : Nat
  m_stripe_count : Nat
  m_journal_order : Nat
  m_journal_splay_width : Nat
  m_journal_pool : String
  m_data_pool : String
  m_force_non_primary : Bool
  m_layout_object_size : Nat
  m_layout_stripe_unit : Nat
  m_layout_stripe_count : Nat
  m_r_saved : Int
  m_mirror_mode : Nat
  m_data_pool_id : Int
deriving DecidableEq

/-- CreateRequest::CreateRequest: option resolution.  Features start from
the caller value or the configured default; conflicting set/clear bits are
dropped from both sides; set is applied then clear; striping/order fall back
to defaults when missing or zero; the layout, force_non_primary flag, and
the derived DATA_POOL and STRIPINGV2 bits follow. -/
def ctor (opts : ImageOptions) (conf : Conf) (pool_name : String)
    (non_primary_global_image_id : String) : ReqState :=
  let m_features0 := opts.features.getD conf.rbd_default_features
  let features_clear0 := opts.features_clear.getD 0
  let features_set0 := opts.features_set.getD 0
  let features_conflict := features_clear0 &&& features_set0
  let features_clear1 := features_clear0 &&& not64 features_conflict
  let features_set1 := features_set0 &&& not64 features_conflict
  let m_features1 := (m_features0 ||| features_set1) &&& not64 features_clear1
  let m_stripe_unit :=
    match opts.stripe_unit with
    | none => conf.rbd_default_stripe_unit
    | some v => if v = 0 then conf.rbd_default_stripe_unit else v
  let m_stripe_count :=
    match opts.stripe_count with
    | none => conf.rbd_default_stripe_count
    | some v => if v = 0 then conf.rbd_default_stripe_count else v
  let m_order :=
    match get_image_option opts.order with
    | none => conf.rbd_default_order
    | some v => if v = 0 then conf.rbd_default_order else v
  let m_journal_order := (get_image_option opts.journal_order).getD conf.rbd_journal_order
  let m_journal_splay_width :=
    (get_image_option opts.journal_splay_width).getD conf.rbd_journal_splay_width
  let m_journal_pool := opts.journal_pool.getD conf.rbd_journal_pool
  let m_data_pool0 := opts.data_pool.getD conf.rbd_default_data_pool
  let m_layout_object_size := 2 ^ m_order
  let m_layout_stripe_unit :=
    if m_stripe_unit = 0 ∨ m_stripe_count = 0 then m_layout_object_size else m_stripe_unit
  let m_layout_stripe_count :=
    if m_stripe_unit = 0 ∨ m_stripe_count = 0 then 1 else m_stripe_count
  let m_force_non_primary := non_primary_global_image_id ≠ ""
  let data_pool_differs := m_data_pool0 ≠ "" ∧ m_data_pool0 ≠ pool_name
  let m_features2 :=
    if data_pool_differs then m_features1 ||| RBD_FEATURE_DATA_POOL
    else m_features1 &&& not64 RBD_FEATURE_DATA_POOL
  let m_data_pool := if data_pool_differs then m_data_pool0 else ""
  let m_features3 :=
    if (m_stripe_unit ≠ 0 ∧ m_stripe_unit ≠ 2 ^ m_order) ∨
        (m_stripe_count ≠ 0 ∧ m_stripe_count ≠ 1) then
      m_features2 ||| RBD_FEATURE_STRIPINGV2
    else
      m_features2 &&& not64 RBD_FEATURE_STRIPINGV2
  { m_features := m_features3
    m_order := m_order
    m_stripe_unit := m_stripe_unit
    m_stripe_count := m_stripe_count
    m_journal_order := m_journal_order
    m_journal_splay_width := m_journal_splay_width
    m_journal_pool := m_journal_pool
    m_data_pool := m_data_pool
    m_force_non_primary := m_force_non_primary
    m_layout_object_size := m_layout_object_size
    m_layout_stripe_unit := m_layout_stripe_unit
    m_layout_stripe_count := m_layout_stripe_count
    m_r_saved := 0
    m_mirror_mode := MIRROR_MODE_DISABLED
    m_data_pool_id := -1 }

/-- CreateRequest::create_image, name computation: the data-object name
written to the header starts from the fixed literal, inserts the metadata
pool id and a dot when a data-pool id was resolved, and ends with the image
id. The literal is a parameter (its value sits in a header not in src/). -/
def data_object_name (lit : String) (data_pool_id : Int) (metadata_pool_id : Int)
    (image_id : String) : String :=
  (if data_pool_id ≠ -1 then lit ++ toString metadata_pool_id ++ "." else lit) ++ image_id

/-- The cluster operations the request can issue, in the order attempted. -/
inductive Op where
  | statDir
  | snapCreate
  | snapRemove
  | createIdObject
  | dirAddImage
  | createImageHeader
  | setStripeUnitCount
  | objectMapResize
  | mirrorModeGet
  | journalCreate
  | mirrorImageGet
  | mirrorImageSet
  | notifyWatchers
  | journalRemove
  | removeObjectMap
  | removeHeaderObject
  | dirRemoveImage
  | removeIdObject
deriving DecidableEq

/-- Results the cluster/sub-services would hand to each completion callback
(0 success, negative errno otherwise), plus the decoded values of the two
mirror reads and the answers of the synchronous external checks. -/
structure Env where
  stat_r : Int
  snap_create_r : Int
  snap_remove_r : Int
  create_id_r : Int
  dir_add_r : Int
  create_image_r : Int
  stripe_r : Int
  objmap_r : Int
  mirror_mode_r : Int
  mirror_mode_decode_r : Int
  mirror_mode_value : Nat
  journal_create_r : Int
  mirror_image_r : Int
  mirror_image_decode_r : Int
  mirror_image_state : Nat
  mirror_set_r : Int
  notify_r : Int
  journal_remove_r : Int
  remove_objmap_r : Int
  remove_header_r : Int
  remove_dir_r : Int
  remove_id_r : Int
  data_pool_exists : Bool
  data_pool_id : Int
  layout_compatible : Bool
deriving DecidableEq

/-- Prefix an attempted operation onto a pipeline continuation's outcome. -/
def withOp (o : Op) (p : Int × List Op) : Int × List Op :=
  (p.1, o :: p.2)

/-- CreateRequest::complete: deliver r to the continuation. -/
def complete (r : Int) : Int × List Op :=
  (r, [])

/-- handle_remove_id_object: log any removal error, then deliver m_r_saved. -/
def handle_remove_id_object (st : ReqState) (_env : Env) : Int × List Op :=
  (st.m_r_saved, [])

/-- remove_id_object (R3): remove the id object. -/
def remove_id_object (st : ReqState) (env : Env) : Int × List Op :=
  withOp .removeIdObject (handle_remove_id_object st env)

/-- handle_remove_from_dir: log any error, continue with remove_id_object. -/
def handle_remove_from_dir (st : ReqState) (env : Env) : Int × List Op :=
  remove_id_object st env

/-- remove_from_dir (R2): remove the directory entry. -/
def remove_from_dir (st : ReqState) (env : Env) : Int × List Op :=
  withOp .dirRemoveImage (handle_remove_from_dir st env)

/-- handle_remove_header_object: log any error, continue with remove_from_dir. -/
def handle_remove_header_object (st : ReqState) (env : Env) : Int × List Op :=
  remove_from_dir st env

/-- remove_header_object (R1): remove the header object. -/
def remove_header_object (st : ReqState) (env : Env) : Int × List Op :=
  withOp .removeHeaderObject (handle_remove_header_object st env)

/-- handle_remove_object_map: log any error, continue with
remove_header_object. -/
def handle_remove_object_map (st : ReqState) (env : Env) : Int × List Op :=
  remove_header_object st env

/-- remove_object_map (R0): skipped when OBJECT_MAP is unset, otherwise
remove the object-map object. -/
def remove_object_map (st : ReqState) (env : Env) : Int × List Op :=
  if st.m_features &&& RBD_FEATURE_OBJECT_MAP = 0 then
    remove_header_object st env
  else
    withOp .removeObjectMap (handle_remove_object_map st env)

/-- handle_journal_remove: log any error, continue with remove_object_map. -/
def handle_journal_remove (st : ReqState) (env : Env) : Int × List Op :=
  remove_object_map st env

/-- journal_remove (R-1): skipped when JOURNALING is unset, otherwise
delegate to the journal removal sub-service. -/
def journal_remove (st : ReqState) (env : Env) : Int × List Op :=
  if st.m_features &&& RBD_FEATURE_JOURNALING = 0 then
    remove_object_map st env
  else
    withOp .journalRemove (handle_journal_remove st env)

/-- handle_watcher_notify: a notification failure is logged only; the
pipeline completes with success either way. -/
def handle_watcher_notify (_st : ReqState) (_r : Int) : Int × List Op :=
  complete 0

/-- send_watcher_notification (F10): enqueue the mirror-updated event. -/
def send_watcher_notification (st : ReqState) (env : Env) : Int × List Op :=
  withOp .notifyWatchers (handle_watcher_notify st env.notify_r)

/-- handle_mirror_image_enable: on error save it and roll back from
journal_remove, otherwise notify watchers. -/
def handle_mirror_image_enable (st : ReqState) (env : Env) : Int × List Op :=
  if env.mirror_set_r < 0 then
    journal_remove { st with m_r_saved := env.mirror_set_r } env
  else
    send_watcher_notification st env

/-- mirror_image_enable (F9): upsert the mirror registration as Enabled. -/
def mirror_image_enable (st : ReqState) (env : Env) : Int × List Op :=
  withOp .mirrorImageSet (handle_mirror_image_enable st env)

/-- handle_fetch_mirror_image: a read error other than -ENOENT (or a decode
error) is saved and rolls back from journal_remove; an existing Enabled
registration completes with the decode result; otherwise (-ENOENT or not
enabled) the registration is (re)enabled. -/
def handle_fetch_mirror_image (st : ReqState) (env : Env) : Int × List Op :=
  if env.mirror_image_r < 0 ∧ env.mirror_image_r ≠ -ENOENT then
    journal_remove { st with m_r_saved := env.mirror_image_r } env
  else if env.mirror_image_r = 0 then
    if env.mirror_image_decode_r < 0 then
      journal_remove { st with m_r_saved := env.mirror_image_decode_r } env
    else if env.mirror_image_state = MIRROR_IMAGE_STATE_ENABLED then
      (env.mirror_image_decode_r, [])
    else
      mirror_image_enable st env
  else
    mirror_image_enable st env

/-- fetch_mirror_image (F8): skipped (completing with success) unless the
pool mirror mode is Pool or the request is forced non-primary. -/
def fetch_mirror_image (st : ReqState) (env : Env) : Int × List Op :=
  if st.m_mirror_mode ≠ MIRROR_MODE_POOL ∧ ¬ st.m_force_non_primary then
    complete 0
  else
    withOp .mirrorImageGet (handle_fetch_mirror_image st env)

/-- handle_journal_create: on error save it and roll back from
remove_object_map, otherwise fetch the mirror registration. -/
def handle_journal_create (st : ReqState) (env : Env) : Int × List Op :=
  if env.journal_create_r < 0 then
    remove_object_map { st with m_r_saved := env.journal_create_r } env
  else
    fetch_mirror_image st env

/-- journal_create (F7): delegate to the journal creation sub-service. -/
def journal_create (st : ReqState) (env : Env) : Int × List Op :=
  withOp .journalCreate (handle_journal_create st env)

/-- handle_fetch_mirror_mode: a read error other than -ENOENT (or a decode
error) is saved and rolls back; -ENOENT leaves the mode Disabled; a decoded
value outside Disabled/Image/Pool takes a local -EINVAL and rolls back
WITHOUT saving it into m_r_saved (mirroring the source); otherwise the mode
is recorded and the journal is created. -/
def handle_fetch_mirror_mode (st : ReqState) (env : Env) : Int × List Op :=
  if env.mirror_mode_r < 0 ∧ env.mirror_mode_r ≠ -ENOENT then
    remove_object_map { st with m_r_saved := env.mirror_mode_r } env
  else if env.mirror_mode_r = 0 ∧ env.mirror_mode_decode_r < 0 then
    remove_object_map { st with m_r_saved := env.mirror_mode_decode_r } env
  else
    let mode := if env.mirror_mode_r = 0 then env.mirror_mode_value else MIRROR_MODE_DISABLED
    if mode = MIRROR_MODE_DISABLED ∨ mode = MIRROR_MODE_IMAGE ∨ mode = MIRROR_MODE_POOL then
      journal_create { st with m_mirror_mode := mode } env
    else
      remove_object_map st env

/-- fetch_mirror_mode (F6): when JOURNALING is unset the pipeline completes
here with success; otherwise read the pool mirror mode. -/
def fetch_mirror_mode (st : ReqState) (env : Env) : Int × List Op :=
  if st.m_features &&& RBD_FEATURE_JOURNALING = 0 then
    complete 0
  else
    withOp .mirrorModeGet (handle_fetch_mirror_mode st env)

/-- handle_object_map_resize: on error save it and roll back from
remove_header_object. -/
def handle_object_map_resize (st : ReqState) (env : Env) : Int × List Op :=
  if env.objmap_r < 0 then
    remove_header_object { st with m_r_saved := env.objmap_r } env
  else
    fetch_mirror_mode st env

/-- object_map_resize (F5): skipped when OBJECT_MAP is unset. -/
def object_map_resize (st : ReqState) (env : Env) : Int × List Op :=
  if st.m_features &&& RBD_FEATURE_OBJECT_MAP = 0 then
    fetch_mirror_mode st env
  else
    withOp .objectMapResize (handle_object_map_resize st env)

/-- handle_set_stripe_unit_count: on error save it and roll back from
remove_header_object. -/
def handle_set_stripe_unit_count (st : ReqState) (env : Env) : Int × List Op :=
  if env.stripe_r < 0 then
    remove_header_object { st with m_r_saved := env.stripe_r } env
  else
    object_map_resize st env

/-- set_stripe_unit_count (F4): skipped for the default stripe shape
(both parameters zero, or one stripe of exactly the object size). -/
def set_stripe_unit_count (st : ReqState) (env : Env) : Int × List Op :=
  if (st.m_stripe_unit = 0 ∧ st.m_stripe_count = 0) ∨
      (st.m_stripe_count = 1 ∧ st.m_stripe_unit = 2 ^ st.m_order) then
    object_map_resize st env
  else
    withOp .setStripeUnitCount (handle_set_stripe_unit_count st env)

/-- handle_create_image: on error save it and roll back from
remove_from_dir. -/
def handle_create_image (st : ReqState) (env : Env) : Int × List Op :=
  if env.create_image_r < 0 then
    remove_from_dir { st with m_r_saved := env.create_image_r } env
  else
    set_stripe_unit_count st env

/-- create_image (F3): create the header object exclusively. -/
def create_image (st : ReqState) (env : Env) : Int × List Op :=
  withOp .createImageHeader (handle_create_image st env)

/-- handle_add_image_to_directory: on error save it and roll back from
remove_id_object. -/
def handle_add_image_to_directory (st : ReqState) (env : Env) : Int × List Op :=
  if env.dir_add_r < 0 then
    remove_id_object { st with m_r_saved := env.dir_add_r } env
  else
    create_image st env

/-- add_image_to_directory (F2): register (name, id) in the directory. -/
def add_image_to_directory (st : ReqState) (env : Env) : Int × List Op :=
  withOp .dirAddImage (handle_add_image_to_directory st env)

/-- handle_create_id_object: an error is delivered directly (nothing was
created before the id object, so there is no rollback). -/
def handle_create_id_object (st : ReqState) (env : Env) : Int × List Op :=
  if env.create_id_r < 0 then
    (env.create_id_r, [])
  else
    add_image_to_directory st env

/-- create_id_object (F1): create the id object exclusively. -/
def create_id_object (st : ReqState) (env : Env) : Int × List Op :=
  withOp .createIdObject (handle_create_id_object st env)

/-- handle_validate_pool: stat success continues; a stat error other than
-ENOENT is delivered; -ENOENT bootstraps self-managed snapshot mode (a
snapshot-id allocate whose failure is delivered, then a release whose
failure is logged only) before continuing. -/
def handle_validate_pool (st : ReqState) (env : Env) : Int × List Op :=
  if env.stat_r = 0 then
    create_id_object st env
  else if env.stat_r < 0 ∧ env.stat_r ≠ -ENOENT then
    (env.stat_r, [])
  else if env.snap_create_r = -EINVAL then
    (-EINVAL, [.snapCreate])
  else if env.snap_create_r < 0 then
    (env.snap_create_r, [.snapCreate])
  else
    withOp .snapCreate (withOp .snapRemove (create_id_object st env))

/-- validate_pool (F0): skipped when disabled by configuration, otherwise
stat the well-known directory object. -/
def validate_pool (st : ReqState) (conf : Conf) (env : Env) : Int × List Op :=
  if ¬ conf.rbd_validate_pool then
    create_id_object st env
  else
    withOp .statDir (handle_validate_pool st env)

/-- validate_data_pool from CreateRequest.cc: nothing to check unless
DATA_POOL is set; a missing pool is -ENOENT; on success the numeric pool id
is resolved. -/
def validate_data_pool (features : Nat) (env : Env) : Int × Option Int :=
  if features &&& RBD_FEATURE_DATA_POOL = 0 then
    (0, none)
  else if ¬ env.data_pool_exists then
    (-ENOENT, none)
  else
    (0, some env.data_pool_id)

/-- Result of CreateRequest::send: either the assertion in validate_features
fires, or a result is (eventually) delivered together with the trace of
cluster operations attempted. -/
inductive SendOutcome where
  | assertion : SendOutcome
  | done (r : Int) (trace : List Op) : SendOutcome
deriving DecidableEq

/-- CreateRequest::send: the pure validators gate the pipeline; any
validator error is delivered with no cluster operation attempted. -/
def send (st : ReqState) (conf : Conf) (env : Env) : SendOutcome :=
  match validate_features st.m_features st.m_force_non_primary with
  | .assertFail => .assertion
  | .err e => .done e []
  | .ok =>
    if validate_order st.m_order < 0 then
      .done (validate_order st.m_order) []
    else if validate_striping st.m_order st.m_stripe_unit st.m_stripe_count < 0 then
      .done (validate_striping st.m_order st.m_stripe_unit st.m_stripe_count) []
    else
      match validate_data_pool st.m_features env with
      | (r, id?) =>
        if r < 0 then
          .done r []
        else
          let st := { st with m_data_pool_id := id?.getD st.m_data_pool_id }
          if ¬ env.layout_compatible then
            .done (-EINVAL) []
          else
            match validate_pool st conf env with
            | (r, trace) => .done r trace

/-- An environment in which every cluster operation succeeds: the mirror
mode reads back Pool, and the existing mirror registration reads back in a
non-Enabled state. -/
def envOK : Env :=
  { stat_r := 0
    snap_create_r := 0
    snap_remove_r := 0
    create_id_r := 0
    dir_add_r := 0
    create_image_r := 0
    stripe_r := 0
    objmap_r := 0
    mirror_mode_r := 0
    mirror_mode_decode_r := 0
    mirror_mode_value := MIRROR_MODE_POOL
    journal_create_r := 0
    mirror_image_r := 0
    mirror_image_decode_r := 0
    mirror_image_state := 2
    mirror_set_r := 0
    notify_r := 0
    journal_remove_r := 0
    remove_objmap_r := 0
    remove_header_r := 0
    remove_dir_r := 0
    remove_id_r := 0
    data_pool_exists := true
    data_pool_id := 3
    layout_compatible := true }

/-- envOK with the five rollback-step results overridden (they may be
arbitrary failures). -/
def envRB (r1 r2 r3 r4 r5 : Int) : Env :=
  { envOK with
    journal_remove_r := r1
    remove_objmap_r := r2
    remove_header_r := r3
    remove_dir_r := r4
    remove_id_r := r5 }

/-- A post-construction state with layering, exclusive-lock, object-map and
journaling enabled and a non-default stripe shape (so F4 runs). -/
def stFull : ReqState :=
  { m_features := RBD_FEATURE_LAYERING ||| RBD_FEATURE_EXCLUSIVE_LOCK |||
      RBD_FEATURE_OBJECT_MAP ||| RBD_FEATURE_JOURNALING
    m_order := 12
    m_stripe_unit := 2048
    m_stripe_count := 2
    m_journal_order := 24
    m_journal_splay_width := 4
    m_journal_pool := ""
    m_data_pool := ""
    m_force_non_primary := false
    m_layout_object_size := 4096
    m_layout_stripe_unit := 2048
    m_layout_stripe_count := 2
    m_r_saved := 0
    m_mirror_mode := MIRROR_MODE_DISABLED
    m_data_pool_id := -1 }

/-- Like stFull but without OBJECT_MAP and with the default stripe shape. -/
def stNoOM : ReqState :=
  { stFull with
    m_features := RBD_FEATURE_LAYERING ||| RBD_FEATURE_EXCLUSIVE_LOCK |||
      RBD_FEATURE_JOURNALING
    m_stripe_unit := 0
    m_stripe_count := 0
    m_layout_stripe_unit := 4096
    m_layout_stripe_count := 1 }

/-- envOK with both mirror reads answering -ENOENT. -/
def envENOENT : Env :=
  { envOK with mirror_mode_r := -ENOENT, mirror_image_r := -ENOENT }

/-- Options that request, explicitly set, and explicitly clear the same
feature bit (LAYERING), which is also the configured default. -/
def opts_c1 : ImageOptions :=
  { features := some RBD_FEATURE_LAYERING
    features_clear := some RBD_FEATURE_LAYERING
    features_set := some RBD_FEATURE_LAYERING
    stripe_unit := none
    stripe_count := none
    order := none
    journal_order := none
    journal_splay_width := none
    journal_pool := none
    data_pool := none }

/-- A plain configuration: layering-only default features, no default
striping or data pool. -/
def conf_c1 : Conf :=
  { rbd_default_features := RBD_FEATURE_LAYERING
    rbd_default_stripe_unit := 0
    rbd_default_stripe_count := 0
    rbd_default_order := 22
    rbd_journal_order := 24
    rbd_journal_splay_width := 4
    rbd_journal_pool := ""
    rbd_default_data_pool := ""
    rbd_validate_pool := true }

/-- Base features LAYERING|EXCLUSIVE_LOCK, with EXCLUSIVE_LOCK both in the
set and in the clear option (a conflict on bit 2). -/
def opts_c1w : ImageOptions :=
  { opts_c1 with
    features := some (RBD_FEATURE_LAYERING ||| RBD_FEATURE_EXCLUSIVE_LOCK)
    features_set := some RBD_FEATURE_EXCLUSIVE_LOCK
    features_clear := some RBD_FEATURE_EXCLUSIVE_LOCK }

/-- A state whose feature mask carries a bit outside the vocabulary. -/
def stUnknown : ReqState :=
  { stFull with m_features := 256 }

/-- C3, formalized: (i) every rollback entry point delivers the saved error
m_r_saved for every environment, in particular whatever the five rollback
operations return; (ii) each forward handler from F2 on, given a failing
operation result, saves exactly that error and continues at its rollback
entry; (iii) from the journal_remove entry with journaling and object-map
features present, the rollback trace is the full fixed sequence of the
remaining steps, independent of the environment's rollback results. -/
def C3Prop (st : ReqState) (env : Env) (e : Int) : Prop :=
  (remove_id_object { st with m_r_saved := e } env).1 = e ∧
  (remove_from_dir { st with m_r_saved := e } env).1 = e ∧
  (remove_header_object { st with m_r_saved := e } env).1 = e ∧
  (remove_object_map { st with m_r_saved := e } env).1 = e ∧
  (journal_remove { st with m_r_saved := e } env).1 = e ∧
  handle_add_image_to_directory st { env with dir_add_r := e } =
    remove_id_object { st with m_r_saved := e } { env with dir_add_r := e } ∧
  handle_create_image st { env with create_image_r := e } =
    remove_from_dir { st with m_r_saved := e } { env with create_image_r := e } ∧
  handle_set_stripe_unit_count st { env with stripe_r := e } =
    remove_header_object { st with m_r_saved := e } { env with stripe_r := e } ∧
  handle_object_map_resize st { env with objmap_r := e } =
    remove_header_object { st with m_r_saved := e } { env with objmap_r := e } ∧
  handle_fetch_mirror_mode st { env with mirror_mode_r := e } =
    remove_object_map { st with m_r_saved := e } { env with mirror_mode_r := e } ∧
  handle_fetch_mirror_mode st { env with mirror_mode_r := 0, mirror_mode_decode_r := e } =
    remove_object_map { st with m_r_saved := e }
      { env with mirror_mode_r := 0, mirror_mode_decode_r := e } ∧
  handle_journal_create st { env with journal_create_r := e } =
    remove_object_map { st with m_r_saved := e } { env with journal_create_r := e } ∧
  handle_fetch_mirror_image st { env with mirror_image_r := e } =
    journal_remove { st with m_r_saved := e } { env with mirror_image_r := e } ∧
  handle_fetch_mirror_image st { env with mirror_image_r := 0, mirror_image_decode_r := e } =
    journal_remove { st with m_r_saved := e }
      { env with mirror_image_r := 0, mirror_image_decode_r := e } ∧
  handle_mirror_image_enable st { env with mirror_set_r := e } =
    journal_remove { st with m_r_saved := e } { env with mirror_set_r := e } ∧
  (st.m_features &&& RBD_FEATURE_JOURNALING ≠ 0 → st.m_features &&& RBD_FEATURE_OBJECT_MAP ≠ 0 →
    (journal_remove { st with m_r_saved := e } env).2 =
      [.journalRemove, .removeObjectMap, .removeHeaderObject, .dirRemoveImage, .removeIdObject])

/-- C4, formalized on full pipeline runs from F1, with the five rollback
operation results arbitrary (r1..r5): for each failing forward step the
delivered error and the exact trace of attempted cluster operations, plus
the two skip rules of the rollback entries. -/
def C4Prop (e r1 r2 r3 r4 r5 : Int) : Prop :=
  create_id_object stFull { envRB r1 r2 r3 r4 r5 with dir_add_r := e } =
    (e, [.createIdObject, .dirAddImage, .removeIdObject]) ∧
  create_id_object stFull { envRB r1 r2 r3 r4 r5 with create_image_r := e } =
    (e, [.createIdObject, .dirAddImage, .createImageHeader, .dirRemoveImage,
         .removeIdObject]) ∧
  create_id_object stFull { envRB r1 r2 r3 r4 r5 with stripe_r := e } =
    (e, [.createIdObject, .dirAddImage, .createImageHeader, .setStripeUnitCount,
         .removeHeaderObject, .dirRemoveImage, .removeIdObject]) ∧
  create_id_object stFull { envRB r1 r2 r3 r4 r5 with objmap_r := e } =
    (e, [.createIdObject, .dirAddImage, .createImageHeader, .setStripeUnitCount,
         .objectMapResize, .removeHeaderObject, .dirRemoveImage, .removeIdObject]) ∧
  create_id_object stFull { envRB r1 r2 r3 r4 r5 with mirror_mode_r := e } =
    (e, [.createIdObject, .dirAddImage, .createImageHeader, .setStripeUnitCount,
         .objectMapResize, .mirrorModeGet, .removeObjectMap, .removeHeaderObject,
         .dirRemoveImage, .removeIdObject]) ∧
  create_id_object stFull { envRB r1 r2 r3 r4 r5 with journal_create_r := e } =
    (e, [.createIdObject, .dirAddImage, .createImageHeader, .setStripeUnitCount,
         .objectMapResize, .mirrorModeGet, .journalCreate, .removeObjectMap,
         .removeHeaderObject, .dirRemoveImage, .removeIdObject]) ∧
  create_id_object stFull { envRB r1 r2 r3 r4 r5 with mirror_image_r := e } =
    (e, [.createIdObject, .dirAddImage, .createImageHeader, .setStripeUnitCount,
         .objectMapResize, .mirrorModeGet, .journalCreate, .mirrorImageGet,
         .journalRemove, .removeObjectMap, .removeHeaderObject, .dirRemoveImage,
         .removeIdObject]) ∧
  create_id_object stFull { envRB r1 r2 r3 r4 r5 with mirror_set_r := e } =
    (e, [.createIdObject, .dirAddImage, .createImageHeader, .setStripeUnitCount,
         .objectMapResize, .mirrorModeGet, .journalCreate, .mirrorImageGet,
         .mirrorImageSet, .journalRemove, .removeObjectMap, .removeHeaderObject,
         .dirRemoveImage, .removeIdObject]) ∧
  create_id_object stNoOM { envRB r1 r2 r3 r4 r5 with journal_create_r := e } =
    (e, [.createIdObject, .dirAddImage, .createImageHeader, .mirrorModeGet,
         .journalCreate, .removeHeaderObject, .dirRemoveImage, .removeIdObject]) ∧
  create_id_object stNoOM { envRB r1 r2 r3 r4 r5 with mirror_mode_r := e } =
    (e, [.createIdObject, .dirAddImage, .createImageHeader, .mirrorModeGet,
         .removeHeaderObject, .dirRemoveImage, .removeIdObject]) ∧
  (∀ st env, st.m_features &&& RBD_FEATURE_JOURNALING = 0 →
    journal_remove st env = remove_object_map st env) ∧
  (∀ st env, st.m_features &&& RBD_FEATURE_OBJECT_MAP = 0 →
    remove_object_map st env = remove_header_object st env)

theorem not64_testBit (x b : Nat) (hb : b < 64) : (not64 x).testBit b = ! x.testBit b := by
  unfold not64
  rw [Nat.testBit_xor, Nat.testBit_two_pow_sub_one]
  simp [hb]

theorem remove_id_object_fst (st : ReqState) (env : Env) :
    (remove_id_object st env).1 = st.m_r_saved := rfl

theorem remove_from_dir_fst (st : ReqState) (env : Env) :
    (remove_from_dir st env).1 = st.m_r_saved := rfl

theorem remove_header_object_fst (st : ReqState) (env : Env) :
    (remove_header_object st env).1 = st.m_r_saved := rfl

theorem remove_object_map_fst (st : ReqState) (env : Env) :
    (remove_object_map st env).1 = st.m_r_saved := by
  unfold remove_object_map
  split <;> rfl

theorem journal_remove_fst (st : ReqState) (env : Env) :
    (journal_remove st env).1 = st.m_r_saved := by
  unfold journal_remove
  split
  · exact remove_object_map_fst st env
  · simpa [withOp, handle_journal_remove] using remove_object_map_fst st env

/-- C6: the order validator accepts exactly the closed interval [12, 25],
returns -EDOM for every value outside it, and in particular rejects 11 and
26 while accepting 12 and 25. -/
theorem c6_validate_order_range (order : Nat) :
    (validate_order order = 0 ↔ 12 ≤ order ∧ order ≤ 25) ∧
    (validate_order order = -EDOM ↔ ¬ (12 ≤ order ∧ order ≤ 25)) ∧
    validate_order 11 = -EDOM ∧ validate_order 12 = 0 ∧
    validate_order 25 = 0 ∧ validate_order 26 = -EDOM := by
  refine ⟨?_, ?_, by decide, by decide, by decide, by decide⟩ <;>
    · unfold validate_order EDOM
      split <;> norm_num <;> omega

/-- C7: the striping validator returns -EINVAL when exactly one of
stripe_unit and stripe_count is zero; with both nonzero it succeeds iff
stripe_unit divides 2^order and does not exceed it; with both zero it
succeeds; and stripe_unit 3 at order 12 is rejected. -/
theorem c7_validate_striping_spec (order su sc : Nat) :
    ((su = 0 ∧ sc ≠ 0) ∨ (su ≠ 0 ∧ sc = 0) → validate_striping order su sc = -EINVAL) ∧
    (su ≠ 0 ∧ sc ≠ 0 →
      validate_striping order su sc =
        if su ∣ 2 ^ order ∧ su ≤ 2 ^ order then 0 else -EINVAL) ∧
    (su = 0 ∧ sc = 0 → validate_striping order su sc = 0) ∧
    validate_striping 12 3 1 = -EINVAL := by
  refine ⟨?_, ?_, ?_, by decide⟩
  · intro h
    unfold validate_striping
    rw [if_pos (by tauto)]
  · rintro ⟨h1, h2⟩
    unfold validate_striping
    rw [if_neg (by tauto), if_pos (Or.inl h1)]
    have hdvd : su ∣ 2 ^ order ↔ 2 ^ order % su = 0 := Nat.dvd_iff_mod_eq_zero
    by_cases hc : su ∣ 2 ^ order ∧ su ≤ 2 ^ order
    · rw [if_pos hc, if_neg]
      push_neg
      exact ⟨hdvd.mp hc.1, hc.2⟩
    · rw [if_neg hc, if_pos]
      by_cases hd : 2 ^ order % su = 0
      · exact Or.inr (lt_of_not_ge fun hle => hc ⟨hdvd.mpr hd, hle⟩)
      · exact Or.inl hd
  · rintro ⟨h1, h2⟩
    unfold validate_striping
    simp [h1, h2]

/-- C10: the order option is read as a 64-bit value and truncated to 8 bits
before validation: the effective order is v mod 256 (falling back to the
configured default when that is zero), so option value 268 yields effective
order 12, which order validation accepts. -/
theorem c10_order_truncation (opts : ImageOptions) (conf : Conf) (pool npgi : String) (v : Nat) :
    (ctor { opts with order := some v } conf pool npgi).m_order =
      (if v % 256 = 0 then conf.rbd_default_order else v % 256) ∧
    (ctor { opts with order := some 268 } conf pool npgi).m_order = 12 ∧
    validate_order (ctor { opts with order := some 268 } conf pool npgi).m_order = 0 := by
  refine ⟨?_, ?_, ?_⟩ <;> norm_num [ctor, get_image_option, validate_order]

/-- C2: with every cluster operation succeeding but the stored mirror mode
decoding to the out-of-vocabulary value 3, the pipeline rolls back the
object map, header, directory entry and id object, yet delivers result 0
(the untouched m_r_saved) to the continuation instead of -EINVAL: the
unknown-mode branch never saves its error. -/
theorem c2_unknown_mirror_mode_bug :
    create_id_object stFull { envOK with mirror_mode_value := 3 } =
      (0, [.createIdObject, .dirAddImage, .createImageHeader, .setStripeUnitCount,
           .objectMapResize, .mirrorModeGet, .removeObjectMap, .removeHeaderObject,
           .dirRemoveImage, .removeIdObject]) := by
  decide

/-- C8: a -ENOENT result from the mirror-mode read makes F6 record mode
Disabled and proceed to journal creation, and a -ENOENT result from the
mirror-registration read makes F8 proceed to enabling mirroring; neither
enters rollback. -/
theorem c8_enoent_benign (st : ReqState) (env : Env)
    (h6 : env.mirror_mode_r = -ENOENT) (h8 : env.mirror_image_r = -ENOENT) :
    handle_fetch_mirror_mode st env =
      journal_create { st with m_mirror_mode := MIRROR_MODE_DISABLED } env ∧
    handle_fetch_mirror_image st env = mirror_image_enable st env := by
  constructor
  · simp [handle_fetch_mirror_mode, h6, ENOENT, MIRROR_MODE_DISABLED, MIRROR_MODE_IMAGE,
      MIRROR_MODE_POOL]
  · simp [handle_fetch_mirror_image, h8, ENOENT]

/-- C8 witness at a concrete environment in which both mirror reads answer
-ENOENT. -/
theorem c8_enoent_benign_witness :
    handle_fetch_mirror_mode stFull envENOENT =
      journal_create { stFull with m_mirror_mode := MIRROR_MODE_DISABLED } envENOENT ∧
    handle_fetch_mirror_image stFull envENOENT = mirror_image_enable stFull envENOENT :=
  c8_enoent_benign stFull envENOENT rfl rfl

/-- C5: the feature validator returns -ENOSYS for any mask with a bit
outside the vocabulary; for in-vocabulary masks a violated dependency
(FAST_DIFF without OBJECT_MAP, OBJECT_MAP without EXCLUSIVE_LOCK, JOURNALING
without EXCLUSIVE_LOCK) returns -EINVAL; for in-vocabulary masks passing the
earlier checks, force_non_primary without JOURNALING hits the assertion
instead of returning; and any validator error is delivered by send with no
cluster operation attempted. -/
theorem c5_validate_features_spec :
    (∀ f fnp, f &&& not64 RBD_FEATURES_ALL ≠ 0 → validate_features f fnp = .err (-ENOSYS)) ∧
    (∀ f fnp, f &&& not64 RBD_FEATURES_ALL = 0 →
      ((f &&& RBD_FEATURE_FAST_DIFF ≠ 0 ∧ f &&& RBD_FEATURE_OBJECT_MAP = 0) ∨
        (f &&& RBD_FEATURE_OBJECT_MAP ≠ 0 ∧ f &&& RBD_FEATURE_EXCLUSIVE_LOCK = 0) ∨
        (f &&& RBD_FEATURE_JOURNALING ≠ 0 ∧ f &&& RBD_FEATURE_EXCLUSIVE_LOCK = 0)) →
      validate_features f fnp = .err (-EINVAL)) ∧
    (∀ f, f &&& not64 RBD_FEATURES_ALL = 0 →
      ¬ (f &&& RBD_FEATURE_FAST_DIFF ≠ 0 ∧ f &&& RBD_FEATURE_OBJECT_MAP = 0) →
      ¬ (f &&& RBD_FEATURE_OBJECT_MAP ≠ 0 ∧ f &&& RBD_FEATURE_EXCLUSIVE_LOCK = 0) →
      f &&& RBD_FEATURE_JOURNALING = 0 →
      validate_features f true = .assertFail) ∧
    (∀ st conf env e, validate_features st.m_features st.m_force_non_primary = .err e →
      send st conf env = .done e []) := by
  refine ⟨?_, ?_, ?_, ?_⟩
  · intro f fnp h
    unfold validate_features
    rw [if_pos h]
  · intro f fnp h0 h
    unfold validate_features
    rw [if_neg (by simpa using h0)]
    split_ifs <;> first | rfl | tauto
  · intro f h0 h1 h2 h3
    unfold validate_features
    rw [if_neg (by simpa using h0), if_neg h1, if_neg h2, if_neg (by simpa using h3), if_pos rfl]
  · intro st conf env e h
    unfold send
    rw [h]

/-- C5 witness: a mask with the unknown bit 256 is Unsupported; FAST_DIFF
alone is Invalid; for layering-only features with force_non_primary the
assertion fires; and send with the unknown-bit state delivers -ENOSYS with
an empty trace. -/
theorem c5_validate_features_spec_witness :
    validate_features 256 false = .err (-ENOSYS) ∧
    validate_features RBD_FEATURE_FAST_DIFF false = .err (-EINVAL) ∧
    validate_features RBD_FEATURE_LAYERING true = .assertFail ∧
    send stUnknown conf_c1 envOK = .done (-ENOSYS) [] :=
  ⟨c5_validate_features_spec.1 256 false (by decide),
    c5_validate_features_spec.2.1 RBD_FEATURE_FAST_DIFF false (by decide) (by decide),
    c5_validate_features_spec.2.2.1 RBD_FEATURE_LAYERING (by decide) (by decide) (by decide)
      (by decide),
    c5_validate_features_spec.2.2.2 stUnknown conf_c1 envOK (-ENOSYS) (by decide)⟩

theorem not64_testBit7 (x : Nat) : (not64 x).testBit 7 = ! x.testBit 7 :=
  not64_testBit x 7 (by omega)

theorem testBit7_DATA_POOL : RBD_FEATURE_DATA_POOL.testBit 7 = true := by decide

theorem testBit7_STRIPINGV2 : RBD_FEATURE_STRIPINGV2.testBit 7 = false := by decide

/-- Bit 7 (DATA_POOL) of the resolved feature mask records exactly whether
the resolved data-pool name is non-empty and differs from the metadata pool
name. -/
theorem ctor_testBit7 (opts : ImageOptions) (conf : Conf) (pool npgi : String) :
    (ctor opts conf pool npgi).m_features.testBit 7 =
      decide (opts.data_pool.getD conf.rbd_default_data_pool ≠ "" ∧
        opts.data_pool.getD conf.rbd_default_data_pool ≠ pool) := by
  simp only [ctor]
  by_cases hdp : opts.data_pool.getD conf.rbd_default_data_pool ≠ "" ∧
      opts.data_pool.getD conf.rbd_default_data_pool ≠ pool
  · simp only [if_pos hdp]
    split <;>
      simp [Nat.testBit_lor, Nat.testBit_land, not64_testBit7, testBit7_DATA_POOL,
        testBit7_STRIPINGV2, hdp]
  · simp only [if_neg hdp]
    split <;>
      simp [Nat.testBit_lor, Nat.testBit_land, not64_testBit7, testBit7_DATA_POOL,
        testBit7_STRIPINGV2, hdp]

/-- C9: the DATA_POOL bit of the resolved mask is set iff a non-empty
data-pool name differing from the metadata pool name was resolved (else the
bit is cleared and the name blanked), and the data-object name is the
literal, the metadata pool id and a dot, then the image id exactly when a
data-pool id was resolved, and the literal followed by the image id
otherwise. -/
theorem c9_data_pool_resolution (opts : ImageOptions) (conf : Conf) (pool npgi : String)
    (lit image_id : String) (d mid : Int) :
    ((ctor opts conf pool npgi).m_features.testBit 7 = true ↔
      (opts.data_pool.getD conf.rbd_default_data_pool ≠ "" ∧
        opts.data_pool.getD conf.rbd_default_data_pool ≠ pool)) ∧
    (¬ (opts.data_pool.getD conf.rbd_default_data_pool ≠ "" ∧
        opts.data_pool.getD conf.rbd_default_data_pool ≠ pool) →
      (ctor opts conf pool npgi).m_data_pool = "" ∧
      (ctor opts conf pool npgi).m_features.testBit 7 = false) ∧
    (d ≠ -1 → data_object_name lit d mid image_id =
      lit ++ toString mid ++ "." ++ image_id) ∧
    (d = -1 → data_object_name lit d mid image_id = lit ++ image_id) := by
  refine ⟨?_, fun h => ⟨?_, ?_⟩, fun h => by simp [data_object_name, h],
    fun h => by simp [data_object_name, h]⟩
  · rw [ctor_testBit7]
    simp
  · simp only [ctor]
    rw [if_neg h]
  · rw [ctor_testBit7]
    simp [h]

/-- C9 witness: with no data pool configured the bit is clear and the name
blank; concrete data-object names for a resolved and an unresolved pool id. -/
theorem c9_data_pool_resolution_witness :
    ((ctor opts_c1 conf_c1 "rbd" "").m_data_pool = "" ∧
      (ctor opts_c1 conf_c1 "rbd" "").m_features.testBit 7 = false) ∧
    data_object_name "d." 3 5 "I1" = "d." ++ toString (5 : Int) ++ "." ++ "I1" ∧
    data_object_name "d." (-1) 5 "I1" = "d." ++ "I1" :=
  ⟨(c9_data_pool_resolution opts_c1 conf_c1 "rbd" "" "d." "I1" 3 5).2.1 (by decide),
    (c9_data_pool_resolution opts_c1 conf_c1 "rbd" "" "d." "I1" 3 5).2.2.1 (by decide),
    (c9_data_pool_resolution opts_c1 conf_c1 "rbd" "" "d." "I1" (-1) 5).2.2.2 rfl⟩

/-- C1 counterexample: with base features containing LAYERING and LAYERING
both in set_bits and clear_bits (a conflict), the resolved mask still has
the bit set, refuting that a conflicting bit is never set in the resolved
mask regardless of the base. -/
theorem c1_conflict_cancel_counterexample :
    (opts_c1.features_set.getD 0).testBit 0 = true ∧
    (opts_c1.features_clear.getD 0).testBit 0 = true ∧
    (ctor opts_c1 conf_c1 "rbd" "").m_features.testBit 0 = true := by
  decide

/-- C1 amended: a feature bit appearing in both set_bits and clear_bits is
ignored, not cancelled: for any such bit (other than the derived bits
STRIPINGV2 and DATA_POOL) the resolved mask carries exactly the bit of the
caller's base features (or of the configured default). -/
theorem c1_conflict_bits_ignored (opts : ImageOptions) (conf : Conf) (pool npgi : String)
    (b : Nat) (hb : b < 64) (hb1 : b ≠ 1) (hb7 : b ≠ 7)
    (hs : (opts.features_set.getD 0).testBit b = true)
    (hc : (opts.features_clear.getD 0).testBit b = true) :
    (ctor opts conf pool npgi).m_features.testBit b =
      (opts.features.getD conf.rbd_default_features).testBit b := by
  have hn : ∀ x, (not64 x).testBit b = ! x.testBit b := fun x => not64_testBit x b hb
  have h7 : (7 : Nat) ≠ b := fun h => hb7 h.symm
  have h1 : (1 : Nat) ≠ b := fun h => hb1 h.symm
  have hDP : RBD_FEATURE_DATA_POOL.testBit b = false := by
    rw [show (RBD_FEATURE_DATA_POOL : Nat) = 2 ^ 7 from rfl, Nat.testBit_two_pow]
    simp [h7]
  have hSV : RBD_FEATURE_STRIPINGV2.testBit b = false := by
    rw [show (RBD_FEATURE_STRIPINGV2 : Nat) = 2 ^ 1 from rfl, Nat.testBit_two_pow]
    simp [h1]
  simp only [ctor]
  split <;> split <;>
    simp [Nat.testBit_lor, Nat.testBit_land, hn, hDP, hSV, hs, hc]

/-- C1 witness: EXCLUSIVE_LOCK (bit 2) conflicted between set and clear,
and present in the base, stays present in the resolved mask. -/
theorem c1_conflict_bits_ignored_witness :
    (2 : Nat) < 64 ∧
    (opts_c1w.features_set.getD 0).testBit 2 = true ∧
    (opts_c1w.features_clear.getD 0).testBit 2 = true ∧
    (ctor opts_c1w conf_c1 "rbd" "").m_features.testBit 2 =
      (opts_c1w.features.getD conf_c1.rbd_default_features).testBit 2 :=
  ⟨by decide, by decide, by decide,
    c1_conflict_bits_ignored opts_c1w conf_c1 "rbd" "" 2 (by decide) (by decide) (by decide)
      (by decide) (by decide)⟩

/-- C3: every rollback entry delivers the saved first error for every
environment (so no rollback-step failure replaces it and no rollback step is
skipped because of an earlier rollback failure), and every forward handler
from F2 on, given a failing operation, saves exactly that error and enters
its designated rollback entry. -/
theorem c3_first_error_preserved (st : ReqState) (env : Env) (e : Int)
    (he : e < 0) (hne : e ≠ -ENOENT) : C3Prop st env e := by
  unfold C3Prop
  refine ⟨remove_id_object_fst _ env, remove_from_dir_fst _ env,
    remove_header_object_fst _ env, remove_object_map_fst _ env, journal_remove_fst _ env,
    ?_, ?_, ?_, ?_, ?_, ?_, ?_, ?_, ?_, ?_, ?_⟩
  · simp [handle_add_image_to_directory, he]
  · simp [handle_create_image, he]
  · simp [handle_set_stripe_unit_count, he]
  · simp [handle_object_map_resize, he]
  · simp [handle_fetch_mirror_mode, he, hne]
  · simp [handle_fetch_mirror_mode, he]
  · simp [handle_journal_create, he]
  · simp [handle_fetch_mirror_image, he, hne]
  · simp [handle_fetch_mirror_image, he]
  · simp [handle_mirror_image_enable, he]
  · intro hJ hO
    simp [journal_remove, handle_journal_remove, remove_object_map, handle_remove_object_map,
      remove_header_object, handle_remove_header_object, remove_from_dir,
      handle_remove_from_dir, remove_id_object, handle_remove_id_object, withOp, hJ, hO]

/-- C3 witness at e = -5 with all cluster operations otherwise succeeding. -/
theorem c3_first_error_preserved_witness :
    ((-5 : Int) < 0) ∧ ((-5 : Int) ≠ -ENOENT) ∧ C3Prop stFull envOK (-5) :=
  ⟨by decide, by decide, c3_first_error_preserved stFull envOK (-5) (by decide) (by decide)⟩

/-- C4: for each failing forward step the full pipeline run attempts
exactly the forward operations up to the failure and then the removals of
the objects created by the previously succeeded steps, in reverse creation
order, delivering the injected error whatever the five rollback operations
return; and the two conditional rollback entries skip precisely when their
feature bit is unset. -/
theorem c4_rollback_entry_points (e r1 r2 r3 r4 r5 : Int) (he : e < 0)
    (hne : e ≠ -ENOENT) : C4Prop e r1 r2 r3 r4 r5 := by
  unfold C4Prop
  refine ⟨?_, ?_, ?_, ?_, ?_, ?_, ?_, ?_, ?_, ?_,
    fun st env h => by simp [journal_remove, h],
    fun st env h => by simp [remove_object_map, h]⟩
  all_goals
    simp +decide [create_id_object, handle_create_id_object, add_image_to_directory,
      handle_add_image_to_directory, create_image, handle_create_image,
      set_stripe_unit_count, handle_set_stripe_unit_count, object_map_resize,
      handle_object_map_resize, fetch_mirror_mode, handle_fetch_mirror_mode,
      journal_create, handle_journal_create, fetch_mirror_image,
      handle_fetch_mirror_image, mirror_image_enable, handle_mirror_image_enable,
      send_watcher_notification, handle_watcher_notify, complete, journal_remove,
      handle_journal_remove, remove_object_map, handle_remove_object_map,
      remove_header_object, handle_remove_header_object, remove_from_dir,
      handle_remove_from_dir, remove_id_object, handle_remove_id_object, withOp,
      envRB, envOK, stFull, stNoOM, MIRROR_MODE_DISABLED,
      MIRROR_MODE_IMAGE, MIRROR_MODE_POOL, MIRROR_IMAGE_STATE_ENABLED,
      RBD_FEATURE_OBJECT_MAP, RBD_FEATURE_JOURNALING, RBD_FEATURE_LAYERING,
      RBD_FEATURE_EXCLUSIVE_LOCK, he, hne]

/-- C4 witness at e = -5 with all five rollback operations failing with -7. -/
theorem c4_rollback_entry_points_witness :
    ((-5 : Int) < 0) ∧ ((-5 : Int) ≠ -ENOENT) ∧ C4Prop (-5) (-7) (-7) (-7) (-7) (-7) :=
  ⟨by decide, by decide,
    c4_rollback_entry_points (-5) (-7) (-7) (-7) (-7) (-7) (by decide) (by decide)⟩

/-- C7 witness: one-sided zero striping is rejected; both-nonzero follows
the divisibility characterization; both-zero passes. -/
theorem c7_validate_striping_spec_witness :
    validate_striping 12 0 5 = -EINVAL ∧
    validate_striping 12 512 2 =
      (if (512 : Nat) ∣ 2 ^ 12 ∧ (512 : Nat) ≤ 2 ^ 12 then 0 else -EINVAL) ∧
    validate_striping 12 0 0 = 0 :=
  ⟨(c7_validate_striping_spec 12 0 5).1 (Or.inl ⟨rfl, by decide⟩),
    (c7_validate_striping_spec 12 512 2).2.1 ⟨by decide, by decide⟩,
    (c7_validate_striping_spec 12 0 0).2.2.1 ⟨rfl, rfl⟩⟩

end Librbd
